import Mathlib

/-!
Verification development for the AI loan-calling backend
(`backend/app/ai_calling/service.py` and `backend/app/ai_calling/views.py`).

Shallow embedding conventions:

* Dates are modelled as natural numbers counting days from an epoch chosen
  so that day 0 is Monday 2024-01-01.  Python's `datetime.weekday()`
  (Monday = 0 … Sunday = 6) is then `d % 7`, `timedelta(days = k)` is `+ k`,
  and the concrete dates of the spec map as 2024-01-02 ↦ 1, 2024-01-08 ↦ 7.
  The `"%Y-%m-%d"` rendering of a computed date and the `", ".join(...)` of a
  date list are injective formatting steps and are left out: the schedule
  function returns the list of day numbers it would format.
* `datetime.now()` is read *inside* `calculate_follow_up_schedule` and
  `determine_report_outcomes` in the source; the embedding necessarily
  threads that wall-clock read as an explicit `today` argument.
* Python strings are `String`; `None`-able strings are `Option String`.
  Python truthiness of a string (`None` and `""` are falsy) is made explicit.
* Audio byte buffers are `List Nat` (one entry per byte, each < 256 in real
  traffic, though nothing below needs that bound); times are `ℚ` seconds and
  amplitudes are exact rationals, idealising Python floats.
-/

namespace AiLoanCall

/-! ### Python string primitives used by the service code -/

/-- Python `x or default` for an optional string: `None` and `""` are falsy. -/
def pyOr (o : Option String) (d : String) : String :=
  match o with
  | none => d
  | some s => if s = "" then d else s

/-- Python `str.lower()` (the service only lowercases ASCII category names). -/
def pyLower (s : String) : String := String.mk (s.toList.map Char.toLower)

/-- Whitespace stripped by Python `str.strip()` (the ASCII part). -/
def isSpaceChar (c : Char) : Bool :=
  c = ' ' || c = '\t' || c = '\n' || c = '\r'

def dropLeadingSpace : List Char → List Char
  | [] => []
  | c :: cs => if isSpaceChar c then dropLeadingSpace cs else c :: cs

/-- Python `str.strip()`: drop leading and trailing whitespace. -/
def pyStrip (s : String) : String :=
  String.mk ((dropLeadingSpace (dropLeadingSpace s.toList).reverse).reverse)

/-- Does `pre` start the list `l`? (helper for the substring test). -/
def startsWithChars : List Char → List Char → Bool
  | [], _ => true
  | _ :: _, [] => false
  | a :: as, b :: bs => a = b && startsWithChars as bs

/-- Python `needle in hay` on the character lists. -/
def containsChars (needle : List Char) : List Char → Bool
  | [] => needle.isEmpty
  | c :: cs => startsWithChars needle (c :: cs) || containsChars needle cs

/-- Python substring test `needle in hay` on strings. -/
def containsSub (hay needle : String) : Bool :=
  containsChars needle.toList hay.toList

/-! ### calculate_follow_up_schedule (service.py lines 108-148)

The Python loop repeatedly does `current_date += timedelta(days=1)` and
`continue`s over Saturday (weekday 5) and Sunday (weekday 6), appending
weekdays until `required_dates` are collected.  Each appended date is thus
the least strictly-later day whose weekday is < 5; `nextBusinessDayAfter`
computes exactly that step (proved least by `nextBusinessDayAfter_least`
below), and `businessDays` iterates it. -/

def nextBusinessDayAfter (d : Nat) : Nat :=
  if (d + 1) % 7 < 5 then d + 1
  else if (d + 2) % 7 < 5 then d + 2
  else d + 3

def businessDays : Nat → Nat → List Nat
  | _, 0 => []
  | start, n + 1 =>
    nextBusinessDayAfter start :: businessDays (nextBusinessDayAfter start) n

/-- Specification predicate: `b` is the next business day strictly after `a`. -/
def IsNextBizDay (a b : Nat) : Prop :=
  a < b ∧ b % 7 < 5 ∧ ∀ e, a < e → e % 7 < 5 → b ≤ e

/-- `calculate_follow_up_schedule(category)`; `today` stands for the
`datetime.now()` read inside the function.  `category = (category or "").lower()`,
then substring tests pick 3 / 7 / 1 dates, the Consistent default first
shifting the start 6 days ahead (`today = today + timedelta(days=6)`).
The source renders the date list as a `", "`-joined string of `"%Y-%m-%d"`
dates; the embedding returns the list itself plus the frequency label. -/
def calculate_follow_up_schedule (category : Option String) (today : Nat) :
    List Nat × String :=
  let c := pyLower (pyOr category "")
  if containsSub c "inconsistent" then (businessDays today 3, "3 calls/week")
  else if containsSub c "overdue" then (businessDays today 7, "Daily (Business Days)")
  else (businessDays (today + 6) 1, "1 call/week")

/-! ### determine_report_outcomes (service.py lines 150-235) -/

structure EmailDraft where
  «to» : String
  subject : String
  body : String
deriving DecidableEq

/-- The `follow_up_date` value of an outcome.  In the source it is a string:
either the committed payment date passed through verbatim, a single
`"%Y-%m-%d"` business day, or the joined schedule; the embedding keeps the
three cases tagged instead of formatted. -/
inductive FollowUpDate where
  | committed (s : String)
  | day (d : Nat)
  | schedule (ds : List Nat)
deriving DecidableEq

structure Outcomes where
  payment_confirmation : String
  follow_up_date : FollowUpDate
  call_frequency : String
  require_manual_process : Bool
  email_to_manager_preview : Option EmailDraft
  next_step_summary : String
deriving DecidableEq

def escalation_intents : List String :=
  ["Paid", "Dispute", "No Response", "Abusive Language",
   "Threatening Language", "Stop Calling"]

/-- Mid-call retry date: `next_day = today + 1 day`, and if its weekday is
Saturday or Sunday, `next_day += (7 - weekday)` days, landing on Monday. -/
def midCallNextDay (today : Nat) : Nat :=
  let nd := today + 1
  if nd % 7 ≥ 5 then nd + (7 - nd % 7) else nd

/-- The guard `payment_date and payment_date.lower() != "null"`. -/
def pdCommitted : Option String → Bool
  | none => false
  | some s => !(s = "") && !(pyLower s = "null")

/-- Python truthiness `if payment_date:`. -/
def pdTruthy : Option String → Bool
  | none => false
  | some s => !(s = "")

def hangupSummary : String :=
  "The borrower hung up mid-sentence. System scheduled a follow-up retry for the next business day."

/-- `determine_report_outcomes(intent, payment_date, category, borrower_name,
borrower_id, is_mid_call)`; `today` stands for the `datetime.now()` read
inside.  Stage 1 picks date/frequency (mid-call retry, else committed date,
else category schedule); stage 2 overwrites the summary and sets the
escalation flag and manager-email draft from the intent.  The final `else`
of the inner template chain corresponds to the source's
`elif intent == "Stop Calling"` arm: the escalation-membership test makes
the six-arm chain exhaustive, so the arm is only reached with that intent. -/
def determine_report_outcomes (intent payment_date category : Option String)
    (borrower_name borrower_id : String) (is_mid_call : Bool) (today : Nat) :
    Outcomes :=
  let intentS := pyStrip (pyOr intent "No Response")
  let categoryS := pyStrip (pyOr category "Consistent")
  let stage1 : FollowUpDate × String × String × String :=
    if is_mid_call then
      (FollowUpDate.day (midCallNextDay today), "1 call (Retry)", hangupSummary, intentS)
    else if pdCommitted payment_date then
      (FollowUpDate.committed (payment_date.getD ""), "1 call (Verify)", "",
       payment_date.getD "")
    else
      let s := calculate_follow_up_schedule (some categoryS) today
      (FollowUpDate.schedule s.1, s.2, "", intentS)
  let follow_up_date := stage1.1
  let call_frequency := stage1.2.1
  let summary1 := stage1.2.2.1
  let pc := stage1.2.2.2
  if escalation_intents.contains intentS then
    let t : String × String × String :=
      if intentS = "Paid" then
        ("Borrower " ++ borrower_name ++ " claims payment made. Please verify.",
         "Payment Verification Required: " ++ borrower_name,
         "Hi Area Manager,\n\nBorrower " ++ borrower_name ++
           (" (" ++ borrower_id ++ ") claims they have already paid. Please verify the transaction.\n\nBest regards,\nAI System"))
      else if intentS = "Dispute" then
        ("Borrower is disputing the loan payment. Escalating for manual investigation.",
         "Payment Dispute: " ++ borrower_name,
         "Hi Area Manager,\n\nBorrower " ++ borrower_name ++
           (" (" ++ borrower_id ++ ") is disputing the loan amount/terms. Manual investigation required.\n\nBest regards,\nAI System"))
      else if intentS = "No Response" then
        ("No clear response from borrower. Escalating for manual follow-up.",
         "No Response Escalation: " ++ borrower_name,
         "Hi Area Manager,\n\nWe could not get a clear response from " ++ borrower_name ++
           (" (" ++ borrower_id ++ "). Please follow up manually.\n\nBest regards,\nAI System"))
      else if intentS = "Abusive Language" then
        ("Borrower used abusive language. Escalating for manual process.",
         "Alert: Abusive Language - " ++ borrower_name,
         "Hi Area Manager,\n\nBorrower " ++ borrower_name ++
           (" (" ++ borrower_id ++ ") was abusive during the call. Initiating manual handling.\n\nBest regards,\nAI System"))
      else if intentS = "Threatening Language" then
        ("Borrower used threatening language. Escalating for manual process.",
         "Security Alert: " ++ borrower_name,
         "Hi Area Manager,\n\nBorrower " ++ borrower_name ++
           (" (" ++ borrower_id ++ ") was threatening. Please handle this case with priority.\n\nBest regards,\nAI System"))
      else
        ("Borrower requested to stop calls. Escalating for manual process.",
         "DNC Request: " ++ borrower_name,
         "Hi Area Manager,\n\nBorrower " ++ borrower_name ++
           (" (" ++ borrower_id ++ ") requested to stop calling. Please update legal status.\n\nBest regards,\nAI System"))
    { payment_confirmation := pc
      follow_up_date := follow_up_date
      call_frequency := call_frequency
      require_manual_process := true
      email_to_manager_preview := some { «to» := "Area Manager", subject := t.2.1, body := t.2.2 }
      next_step_summary := t.1 }
  else if intentS = "Will Pay" ∨ intentS = "Needs Extension" then
    { payment_confirmation := pc
      follow_up_date := follow_up_date
      call_frequency := call_frequency
      require_manual_process := false
      email_to_manager_preview := none
      next_step_summary :=
        if pdTruthy payment_date then
          "Borrower committed to pay/extend until " ++ payment_date.getD "" ++ "."
        else
          "Borrower committed to " ++ intentS ++ ". Follow-up scheduled." }
  else
    { payment_confirmation := pc
      follow_up_date := follow_up_date
      call_frequency := call_frequency
      require_manual_process := false
      email_to_manager_preview := none
      next_step_summary := summary1 }

/-! ### AudioBuffer (service.py lines 541-584)

`add_chunk` writes the chunk into the byte buffer, computes the mean absolute
amplitude of its 16-bit little-endian samples (`struct.unpack` raises on an
odd byte count and the bare `except` turns that into amplitude 0, as it does
for an empty sample list), then runs the speech/silence state machine.
`silence_threshold = 300`, `silence_duration = 1.2` s,
`min_speech_duration = 0.6` s so the minimum-bytes guard is
`tell() > 16000 * 2 * 0.6 = 19200`, and the hard cap is
`tell() > 16000 * 2 * 10 = 320000`. -/

structure BufState where
  data : List Nat
  silence_start : Option ℚ
  speech_detected : Bool
deriving DecidableEq

def initBuf : BufState := { data := [], silence_start := none, speech_detected := false }

/-- Signed 16-bit little-endian decoding of `struct.unpack(f'{n}h', chunk)`. -/
def decodeSamples : List Nat → List Int
  | lo :: hi :: rest =>
    (if lo + 256 * hi < 32768 then ((lo + 256 * hi : Nat) : Int)
     else ((lo + 256 * hi : Nat) : Int) - 65536) :: decodeSamples rest
  | _ => []

/-- `rms = sum(abs(s) for s in samples) / len(samples) if samples else 0`,
with the `except` branch (odd byte count) giving 0. -/
def rmsOf (chunk : List Nat) : ℚ :=
  if chunk.length % 2 ≠ 0 then 0
  else
    let samples := decodeSamples chunk
    if samples.length = 0 then 0
    else (samples.map fun s => ((s.natAbs : ℚ))).sum / (samples.length : ℚ)

/-- The trailing buffer-cap test: `tell() > 320000` and speech was detected. -/
def capSignal (st : BufState) : Bool :=
  decide (st.data.length > 320000) && st.speech_detected

/-- The body of `add_chunk` once the amplitude is known: the state machine on
(buffer, speech_detected, silence_start).  Factored out because the chunk
only enters through its bytes (appended) and its amplitude. -/
def addChunkCore (st : BufState) (chunk : List Nat) (rms : ℚ) (now : ℚ) :
    BufState × Bool :=
  let buffered : BufState :=
    if rms ≥ 300 then
      { data := st.data ++ chunk, silence_start := none, speech_detected := true }
    else
      { data := st.data ++ chunk, silence_start := st.silence_start,
        speech_detected := st.speech_detected }
  if buffered.speech_detected = true ∧ rms < 300 then
    match buffered.silence_start with
    | none =>
      let st2 := { buffered with silence_start := some now }
      (st2, capSignal st2)
    | some t0 =>
      if now - t0 ≥ 6 / 5 then
        if buffered.data.length > 19200 then (buffered, true)
        else (buffered, capSignal buffered)
      else (buffered, capSignal buffered)
  else (buffered, capSignal buffered)

/-- `AudioBuffer.add_chunk(audio_chunk)`; `now` stands for the `time.time()`
read at the top of the method. -/
def add_chunk (st : BufState) (chunk : List Nat) (now : ℚ) : BufState × Bool :=
  addChunkCore st chunk (rmsOf chunk) now

/-- `AudioBuffer.get_audio()`: return the buffered bytes and reset. -/
def get_audio (st : BufState) : List Nat × BufState := (st.data, initBuf)

/-- Feeding a whole chunk stream (with per-chunk arrival times) through one
buffer, collecting the per-chunk "utterance ready" signals. -/
def runChunks (st : BufState) : List (List Nat × ℚ) → List Bool
  | [] => []
  | (c, t) :: rest =>
    (add_chunk st c t).2 :: runChunks (add_chunk st c t).1 rest

/-! ### ConversationHandler (service.py lines 648-681) and language detection -/

/-- `detect_language`: presence of Devanagari (U+0900-U+097F) picks Hindi,
else Tamil (U+0B80-U+0BFF), else English. -/
def detect_language (text : String) : String :=
  let t := pyStrip text
  if t.toList.any (fun c => decide (0x900 ≤ c.toNat ∧ c.toNat ≤ 0x97F)) then "hi-IN"
  else if t.toList.any (fun c => decide (0xB80 ≤ c.toNat ∧ c.toNat ≤ 0xBFF)) then "ta-IN"
  else "en-IN"

structure Turn where
  speaker : String
  text : String
  timestamp : ℚ
  language : String
deriving DecidableEq

structure ConversationHandler where
  call_uuid : String
  user_id : Option String
  borrower_id : Option String
  conversation : List Turn
  is_active : Bool
  preferred_language : String
  current_language : String
  language_history : List (String × String × ℚ)
deriving DecidableEq

/-- The fields of a session that the streaming loop never writes: identity,
ownership, the active flag and the preferred language. -/
def sessionId (h : ConversationHandler) :
    String × Option String × Option String × Bool × String :=
  (h.call_uuid, h.user_id, h.borrower_id, h.is_active, h.preferred_language)

/-- `ConversationHandler.add_entry(speaker, text)`: append a turn stamped with
the current language (`now` stands for the `datetime.now()` timestamp). -/
def add_entry (h : ConversationHandler) (speaker text : String) (now : ℚ) :
    ConversationHandler :=
  { h with conversation :=
      h.conversation ++
        [{ speaker := speaker, text := text, timestamp := now,
           language := h.current_language }] }

/-- `ConversationHandler.update_language(detected_language)`. -/
def update_language (h : ConversationHandler) (detected : String) (now : ℚ) :
    ConversationHandler :=
  if detected ≠ h.current_language then
    { h with
      language_history := h.language_history ++ [(h.current_language, detected, now)],
      current_language := detected }
  else h

/-! ### Event webhook (views.py lines 741-774)

The process-wide state the webhook touches: the `call_data` session registry
and the `greeting_cache` audio cache, both keyed by call uuid.  `save_transcript`
persists the session (and the outcome derived from it) to the database; the
embedding returns the list of session snapshots persisted by the call.  Both
return sites of the handler answer the constant empty JSON object. -/

structure WebhookState where
  callData : String → Option ConversationHandler
  greetingCache : String → Option (List Nat)

inductive WebhookAck where
  | emptyJson
deriving DecidableEq

/-- `event_webhook`: on `status == 'completed'` with a registered session,
mark it inactive, persist it, then delete it from `call_data` and
`greeting_cache`; every other event is acknowledged and ignored.
`call_uuid` is already `data.get('uuid') or data.get('conversation_uuid')`
(`none` also covers the empty-payload early return). -/
def event_webhook (status call_uuid : Option String) (st : WebhookState) :
    WebhookState × List ConversationHandler × WebhookAck :=
  match call_uuid with
  | none => (st, [], WebhookAck.emptyJson)
  | some u =>
    if status = some "completed" then
      match st.callData u with
      | some h =>
        let h' := { h with is_active := false }
        ({ callData := fun k => if k = u then none else st.callData k,
           greetingCache := fun k => if k = u then none else st.greetingCache k },
         [h'], WebhookAck.emptyJson)
      | none => (st, [], WebhookAck.emptyJson)
    else (st, [], WebhookAck.emptyJson)

/-! ### process_single_call (views.py lines 476-549) -/

/-- What one placement attempt (`create_dummy_call` / `make_outbound_call`)
reports back; only the fields `process_single_call` reads are kept. -/
structure DummyResult where
  success : Bool
  mid_call : Bool := false
  call_uuid : Option String := none
  status : Option String := none
  next_step_summary : Option String := none
  email_to_manager_preview : Option EmailDraft := none
  require_manual_process : Bool := false
deriving DecidableEq

/-- The `CallResponse` pydantic model (the fields with defaults are the ones
`process_single_call` leaves unset on one path or the other). -/
structure CallResponse where
  success : Bool
  call_uuid : Option String := none
  status : Option String := none
  to_number : Option String := none
  language : Option String := none
  borrower_id : Option String := none
  is_dummy : Bool := false
  mid_call : Bool := false
  next_step_summary : Option String := none
  email_to_manager_preview : Option EmailDraft := none
  require_manual_process : Bool := false
  payment_confirmation : Option String := none
  follow_up_date : Option String := none
  call_frequency : Option String := none
deriving DecidableEq

/-- The retry loop's surviving `last_res`: `attempts i` is what the i-th
placement would report.  The loop body breaks on any `success` result
(both the mid-call and the fully-successful arm `break`), and on failure
sleeps and retries, so after at most 3 iterations `last_res` is the first
successful result, or the third failure. -/
def lastRes (attempts : Nat → DummyResult) : DummyResult :=
  if (attempts 0).success then attempts 0
  else if (attempts 1).success then attempts 1
  else attempts 2

/-- The dedicated repeated-connection-failure manager notification. -/
def connectionFailureEmail (borrowerNO : String) : EmailDraft :=
  { «to» := "Area Manager"
    subject := "Action Required: Multiple Call Failures - Borrower " ++ borrowerNO
    body := "Hi Area Manager,\n\nWe attempted to call Borrower (No: " ++ borrowerNO ++
      (") 3 times, but all calls failed to connect (Zero duration).\n\nWe are escalating this to the Manual Process for you to initiate manual intervention.\n\nBest regards,\nAI Collection System") }

/-- `process_single_call(user_id, borrower, use_dummy_data, normalized_language)`:
the response built after the retry loop.  The borrower-record update issued on
the all-failures path (`update_borrower(...)`) is an external persistence
effect and is not part of the returned response; the failure response also
sets `ai_analysis = {"summary": "All attempts failed."}`, a field not
modelled here.  Note neither return site sets `follow_up_date`,
`payment_confirmation` or `call_frequency`, so they keep their `None`
defaults. -/
def process_single_call (borrowerNO cell1 lang : String) (use_dummy : Bool)
    (attempts : Nat → DummyResult) : CallResponse :=
  let last := lastRes attempts
  if last.success = false then
    { success := true
      borrower_id := some borrowerNO
      status := some "Failed pickup"
      next_step_summary := some "All call attempts failed after 3 tries. Escalating to Manual Process."
      email_to_manager_preview := some (connectionFailureEmail borrowerNO)
      require_manual_process := true }
  else
    { success := true
      call_uuid := last.call_uuid
      status := last.status
      to_number := some cell1
      language := some lang
      borrower_id := some borrowerNO
      is_dummy := use_dummy
      mid_call := last.mid_call
      next_step_summary := last.next_step_summary
      email_to_manager_preview := last.email_to_manager_preview
      require_manual_process := last.require_manual_process }

/-! ### websocket_endpoint (views.py lines 781-850)

The streaming handler: refuse unknown call uuids, send the cached greeting,
then loop over incoming frames feeding the audio buffer; a ready utterance is
drained and run through transcription → language detection → transcript
appends → reply generation → synthesis.  The external AI capabilities are
oracle parameters.  The `except WebSocketDisconnect` / `except Exception` /
`finally` exit path deliberately does nothing: the session stays registered
(the in-place mutations of the handler object are modelled by writing the
final handler back into the registry). -/

structure Oracles where
  transcribe : List Nat → String → Option String
  generate : String → String → List Turn → String
  synthesize : String → String → Option (List Nat)

/-- One completed utterance through the turn pipeline (the body of
`if transcript:`). -/
def handle_turn (or : Oracles) (h : ConversationHandler) (tr : String) (now : ℚ) :
    ConversationHandler × List (List Nat) :=
  let detected := detect_language tr
  let h1 := if detected ≠ h.current_language then update_language h detected now else h
  let h2 := add_entry h1 "User" tr now
  let reply := or.generate tr h2.current_language h2.conversation
  let h3 := add_entry h2 "AI" reply now
  (h3,
   match or.synthesize reply h3.current_language with
   | some outAudio => [outAudio]
   | none => [])

/-- One binary frame through the buffer and, when ready, the turn pipeline. -/
def wsHandleAudio (or : Oracles) (h : ConversationHandler) (buf : BufState)
    (chunk : List Nat) (now : ℚ) :
    ConversationHandler × BufState × List (List Nat) :=
  let r := add_chunk buf chunk now
  if r.2 = true then
    let g := get_audio r.1
    match or.transcribe g.1 h.current_language with
    | some tr =>
      let ht := handle_turn or h tr now
      (ht.1, g.2, ht.2)
    | none => (h, g.2, [])
  else (h, r.1, [])

/-- An incoming websocket frame: binary audio (with its arrival time) or text
(accepted and ignored by the handler). -/
inductive WsMsg where
  | audio (chunk : List Nat) (now : ℚ)
  | text (s : String)

/-- The receive loop, ended by disconnection or error after the listed
messages; returns the handler as the loop left it and the audio frames sent. -/
def wsLoop (or : Oracles) :
    ConversationHandler → BufState → List WsMsg → ConversationHandler × List (List Nat)
  | h, _, [] => (h, [])
  | h, buf, WsMsg.audio c t :: rest =>
    let r := wsHandleAudio or h buf c t
    let rr := wsLoop or r.1 r.2.1 rest
    (rr.1, r.2.2 ++ rr.2)
  | h, buf, WsMsg.text _ :: rest => wsLoop or h buf rest

/-- `websocket_endpoint(websocket, call_uuid)` over a whole connection:
unknown uuid → close immediately; otherwise send any cached greeting, run the
loop, and exit through the no-op `finally`.  Returns the registry/cache after
the handler exits and the audio frames sent. -/
def websocket_endpoint (or : Oracles) (st : WebhookState) (call_uuid : String)
    (msgs : List WsMsg) : WebhookState × List (List Nat) :=
  match st.callData call_uuid with
  | none => (st, [])
  | some h =>
    let greet := match st.greetingCache call_uuid with
      | some g => [g]
      | none => []
    let r := wsLoop or h initBuf msgs
    ({ callData := fun k => if k = call_uuid then some r.1 else st.callData k,
       greetingCache := st.greetingCache }, greet ++ r.2)

/-! ## Helper lemmas -/

theorem nextBusinessDayAfter_gt (d : Nat) : d < nextBusinessDayAfter d := by
  unfold nextBusinessDayAfter; split_ifs <;> omega

theorem nextBusinessDayAfter_weekday (d : Nat) : nextBusinessDayAfter d % 7 < 5 := by
  unfold nextBusinessDayAfter; split_ifs <;> omega

theorem nextBusinessDayAfter_least (d e : Nat) (h1 : d < e) (h2 : e % 7 < 5) :
    nextBusinessDayAfter d ≤ e := by
  unfold nextBusinessDayAfter; split_ifs <;> omega

theorem isNextBizDay_step (d : Nat) : IsNextBizDay d (nextBusinessDayAfter d) :=
  ⟨nextBusinessDayAfter_gt d, nextBusinessDayAfter_weekday d,
    fun e he hw => nextBusinessDayAfter_least d e he hw⟩

theorem businessDays_length (s n : Nat) : (businessDays s n).length = n := by
  induction n generalizing s with
  | zero => rfl
  | succ n ih => simp [businessDays, ih]

theorem businessDays_chain (s n : Nat) :
    List.Chain IsNextBizDay s (businessDays s n) := by
  induction n generalizing s with
  | zero => exact List.Chain.nil
  | succ n ih => exact List.Chain.cons (isNextBizDay_step s) (ih _)

theorem businessDays_weekday (s n : Nat) : ∀ d ∈ businessDays s n, d % 7 < 5 := by
  induction n generalizing s with
  | zero => intro d hd; simp [businessDays] at hd
  | succ n ih =>
    intro d hd
    rcases List.mem_cons.mp hd with rfl | hd'
    · exact nextBusinessDayAfter_weekday s
    · exact ih _ d hd'

theorem businessDays_chain' (s n : Nat) :
    List.Chain' (· < ·) (businessDays s n) := by
  cases n with
  | zero => simp [businessDays]
  | succ n =>
    show List.Chain' (· < ·)
      (nextBusinessDayAfter s :: businessDays (nextBusinessDayAfter s) n)
    exact List.Chain.imp (fun a b hab => hab.1) (businessDays_chain _ n)

/-! ## C2 -/

/-- C2: for every category input, `calculate_follow_up_schedule` returns a
strictly increasing list of dates, none on Saturday or Sunday (weekday ≥ 5):
successive business days from the start day (the start is 6 days ahead for
the Consistent default), with 3 dates when the lowercased category contains
"inconsistent", 7 when it contains "overdue", and 1 otherwise; concretely,
from Monday 2024-01-01 (day 0) an Overdue schedule is the 7 weekdays
2024-01-02 … 2024-01-10 (days 1,2,3,4,7,8,9) and a Consistent schedule is
the single day 2024-01-08 (day 7). -/
theorem follow_up_schedule_spec (category : Option String) (today : Nat) :
    List.Chain' (· < ·) (calculate_follow_up_schedule category today).1 ∧
    (∀ d ∈ (calculate_follow_up_schedule category today).1, d % 7 < 5) ∧
    ((calculate_follow_up_schedule category today).1.length =
      if containsSub (pyLower (pyOr category "")) "inconsistent" then 3
      else if containsSub (pyLower (pyOr category "")) "overdue" then 7 else 1) ∧
    List.Chain IsNextBizDay
      (if containsSub (pyLower (pyOr category "")) "inconsistent" then today
       else if containsSub (pyLower (pyOr category "")) "overdue" then today
       else today + 6)
      (calculate_follow_up_schedule category today).1 ∧
    (calculate_follow_up_schedule (some "Overdue") 0).1 = [1, 2, 3, 4, 7, 8, 9] ∧
    (calculate_follow_up_schedule (some "Consistent") 0).1 = [7] := by
  refine ⟨?_, ?_, ?_, ?_, by decide, by decide⟩ <;>
  · simp only [calculate_follow_up_schedule]
    split_ifs <;>
      first
        | exact businessDays_chain' _ _
        | exact businessDays_weekday _ _
        | exact businessDays_chain _ _
        | simp [businessDays_length]

theorem contains_escalation (s : String) :
    escalation_intents.contains s = true ↔
      s = "Paid" ∨ s = "Dispute" ∨ s = "No Response" ∨ s = "Abusive Language" ∨
      s = "Threatening Language" ∨ s = "Stop Calling" := by
  have h : escalation_intents.contains s = true ↔ s ∈ escalation_intents :=
    List.elem_iff
  rw [h]
  simp [escalation_intents]

/-! ## C1 -/

/-- C1: whenever the normalized intent is one of the six escalation intents,
`determine_report_outcomes` sets `require_manual_process = true` and produces
a manager-notification draft addressed to "Area Manager" whose subject and
body both contain the borrower's name; when it is "Will Pay" or
"Needs Extension" it sets `require_manual_process = false` and a `None`
draft. -/
theorem escalation_intent_spec (intent payment_date category : Option String)
    (borrower_name borrower_id : String) (is_mid_call : Bool) (today : Nat) :
    (escalation_intents.contains (pyStrip (pyOr intent "No Response")) = true →
      (determine_report_outcomes intent payment_date category borrower_name
        borrower_id is_mid_call today).require_manual_process = true ∧
      ∃ d : EmailDraft,
        (determine_report_outcomes intent payment_date category borrower_name
          borrower_id is_mid_call today).email_to_manager_preview = some d ∧
        d.«to» = "Area Manager" ∧
        (∃ p q, d.subject = p ++ borrower_name ++ q) ∧
        (∃ p q, d.body = p ++ borrower_name ++ q)) ∧
    ((pyStrip (pyOr intent "No Response") = "Will Pay" ∨
      pyStrip (pyOr intent "No Response") = "Needs Extension") →
      (determine_report_outcomes intent payment_date category borrower_name
        borrower_id is_mid_call today).require_manual_process = false ∧
      (determine_report_outcomes intent payment_date category borrower_name
        borrower_id is_mid_call today).email_to_manager_preview = none) := by
  constructor
  · intro hmem
    rcases (contains_escalation _).mp hmem with hi | hi | hi | hi | hi | hi
    · simp only [determine_report_outcomes, hi]
      norm_num [escalation_intents]
      exact ⟨⟨"Payment Verification Required: ", "", (String.append_empty _).symm⟩,
        ⟨"Hi Area Manager,\n\nBorrower ", _, rfl⟩⟩
    · simp only [determine_report_outcomes, hi]
      norm_num [escalation_intents]
      exact ⟨⟨"Payment Dispute: ", "", (String.append_empty _).symm⟩,
        ⟨"Hi Area Manager,\n\nBorrower ", _, rfl⟩⟩
    · simp only [determine_report_outcomes, hi]
      norm_num [escalation_intents]
      exact ⟨⟨"No Response Escalation: ", "", (String.append_empty _).symm⟩,
        ⟨"Hi Area Manager,\n\nWe could not get a clear response from ", _, rfl⟩⟩
    · simp only [determine_report_outcomes, hi]
      norm_num [escalation_intents]
      exact ⟨⟨"Alert: Abusive Language - ", "", (String.append_empty _).symm⟩,
        ⟨"Hi Area Manager,\n\nBorrower ", _, rfl⟩⟩
    · simp only [determine_report_outcomes, hi]
      norm_num [escalation_intents]
      exact ⟨⟨"Security Alert: ", "", (String.append_empty _).symm⟩,
        ⟨"Hi Area Manager,\n\nBorrower ", _, rfl⟩⟩
    · simp only [determine_report_outcomes, hi]
      norm_num [escalation_intents]
      exact ⟨⟨"DNC Request: ", "", (String.append_empty _).symm⟩,
        ⟨"Hi Area Manager,\n\nBorrower ", _, rfl⟩⟩
  · intro hwp
    rcases hwp with hi | hi
    · simp only [determine_report_outcomes, hi]
      rw [if_neg (show ¬(escalation_intents.contains "Will Pay" = true) from by decide)]
      simp
    · simp only [determine_report_outcomes, hi]
      rw [if_neg (show ¬(escalation_intents.contains "Needs Extension" = true) from
          by decide)]
      simp

/-! ## C3 -/

/-- Helper: the mid-call retry date is exactly the next business day. -/
theorem midCallNextDay_isNext (d : Nat) : IsNextBizDay d (midCallNextDay d) := by
  refine ⟨?_, ?_, fun e he hw => ?_⟩ <;>
    · simp only [midCallNextDay]
      split_ifs <;> omega

/-- C3 (amended): `determine_report_outcomes` picks the follow-up date with
the fixed precedence mid-call ≻ committed date ≻ category schedule: a
mid-call hangup schedules the next business day (weekday, strictly later,
and least such) with frequency "1 call (Retry)" whatever the committed
date; otherwise a committed date (non-empty, not "null") is the follow-up
verbatim with frequency "1 call (Verify)" — concretely Will Pay with
committed date 2024-03-01 follows up on 2024-03-01 without escalation;
otherwise the category schedule decides.  The hangup summary of the claim
survives only when the intent matches neither the escalation intents nor
the Will Pay / Needs Extension arm, both of which overwrite
`next_step_summary` (see the counterexample). -/
theorem follow_up_precedence_spec (intent payment_date category : Option String)
    (borrower_name borrower_id : String) (today : Nat) :
    ((determine_report_outcomes intent payment_date category borrower_name
        borrower_id true today).follow_up_date
      = FollowUpDate.day (midCallNextDay today)) ∧
    ((determine_report_outcomes intent payment_date category borrower_name
        borrower_id true today).call_frequency = "1 call (Retry)") ∧
    IsNextBizDay today (midCallNextDay today) ∧
    (pdCommitted payment_date = true →
      (determine_report_outcomes intent payment_date category borrower_name
          borrower_id false today).follow_up_date
        = FollowUpDate.committed (payment_date.getD "") ∧
      (determine_report_outcomes intent payment_date category borrower_name
          borrower_id false today).call_frequency = "1 call (Verify)") ∧
    (pdCommitted payment_date = false →
      (determine_report_outcomes intent payment_date category borrower_name
          borrower_id false today).follow_up_date
        = FollowUpDate.schedule
            (calculate_follow_up_schedule
              (some (pyStrip (pyOr category "Consistent"))) today).1) ∧
    ((determine_report_outcomes (some "Will Pay") (some "2024-03-01") category
        borrower_name borrower_id false today).follow_up_date
      = FollowUpDate.committed "2024-03-01") ∧
    ((determine_report_outcomes (some "Will Pay") (some "2024-03-01") category
        borrower_name borrower_id false today).require_manual_process = false) ∧
    (escalation_intents.contains (pyStrip (pyOr intent "No Response")) = false →
      pyStrip (pyOr intent "No Response") ≠ "Will Pay" →
      pyStrip (pyOr intent "No Response") ≠ "Needs Extension" →
      (determine_report_outcomes intent payment_date category borrower_name
          borrower_id true today).next_step_summary = hangupSummary) := by
  refine ⟨?_, ?_, midCallNextDay_isNext today, ?_, ?_, ?_, ?_, ?_⟩
  · simp only [determine_report_outcomes]
    split_ifs <;> rfl
  · simp only [determine_report_outcomes]
    split_ifs <;> rfl
  · intro hpd
    constructor <;>
      · simp only [determine_report_outcomes, hpd]
        split_ifs <;> simp_all
  · intro hpd
    simp only [determine_report_outcomes, hpd]
    split_ifs <;> simp_all
  · have e1 : pyStrip (pyOr (some "Will Pay") "No Response") = "Will Pay" := by decide
    have e2 : pdCommitted (some "2024-03-01") = true := by decide
    simp only [determine_report_outcomes, e1, e2]
    rw [if_neg (show ¬(escalation_intents.contains "Will Pay" = true) from by decide)]
    simp
  · have e1 : pyStrip (pyOr (some "Will Pay") "No Response") = "Will Pay" := by decide
    simp only [determine_report_outcomes, e1]
    rw [if_neg (show ¬(escalation_intents.contains "Will Pay" = true) from by decide)]
    simp
  · intro h1 h2 h3
    simp only [determine_report_outcomes, h1, h2, h3]
    norm_num

/-- C3 counterexample: with a mid-call hangup and intent Will Pay (no
committed date), the Will Pay arm overwrites `next_step_summary`, so the
result does not flag the abrupt hangup as the claim states — even though the
follow-up date and frequency do follow the mid-call precedence. -/
theorem mid_call_summary_overwritten_cex :
    (determine_report_outcomes (some "Will Pay") none none "Borrower" "" true
        0).next_step_summary
      = "Borrower committed to Will Pay. Follow-up scheduled." ∧
    (determine_report_outcomes (some "Will Pay") none none "Borrower" "" true
        0).next_step_summary ≠ hangupSummary ∧
    (determine_report_outcomes (some "Will Pay") none none "Borrower" "" true
        0).follow_up_date = FollowUpDate.day 1 ∧
    (determine_report_outcomes (some "Will Pay") none none "Borrower" "" true
        0).call_frequency = "1 call (Retry)" := by
  refine ⟨by decide, by decide, by decide, by decide⟩

/-! ## C7 -/

/-- C7 (amended): for a fixed evaluation timestamp the follow-up date, the
call frequency, the escalation decision, the payment confirmation and the
presence of a manager notification are a function of (intent, committed
date, category, mid-call flag) alone — the borrower's name and id never
influence them; the timestamp itself, however, is read implicitly via
`datetime.now()` inside the source functions (see the counterexample), so it
is a hidden input, not an explicit one. -/
theorem outcome_determinism_spec (intent payment_date category : Option String)
    (name1 id1 name2 id2 : String) (mc : Bool) (today : Nat) :
    ((determine_report_outcomes intent payment_date category name1 id1 mc
        today).follow_up_date
      = (determine_report_outcomes intent payment_date category name2 id2 mc
        today).follow_up_date) ∧
    ((determine_report_outcomes intent payment_date category name1 id1 mc
        today).call_frequency
      = (determine_report_outcomes intent payment_date category name2 id2 mc
        today).call_frequency) ∧
    ((determine_report_outcomes intent payment_date category name1 id1 mc
        today).require_manual_process
      = (determine_report_outcomes intent payment_date category name2 id2 mc
        today).require_manual_process) ∧
    ((determine_report_outcomes intent payment_date category name1 id1 mc
        today).payment_confirmation
      = (determine_report_outcomes intent payment_date category name2 id2 mc
        today).payment_confirmation) ∧
    ((determine_report_outcomes intent payment_date category name1 id1 mc
        today).email_to_manager_preview.isSome
      = (determine_report_outcomes intent payment_date category name2 id2 mc
        today).email_to_manager_preview.isSome) := by
  simp only [determine_report_outcomes]
  split_ifs <;> simp

/-- C7 counterexample: the evaluation timestamp is not an explicit input of
the source functions (their signatures carry no timestamp; `datetime.now()`
is read inside), and it does influence the result: the same
category-and-flag inputs evaluated one day apart give different follow-up
dates, both for the schedule and for the mid-call retry date. -/
theorem implicit_now_dependence_cex :
    (calculate_follow_up_schedule (some "Overdue") 0).1
      ≠ (calculate_follow_up_schedule (some "Overdue") 1).1 ∧
    (determine_report_outcomes none none none "Borrower" "" true 0).follow_up_date
      ≠ (determine_report_outcomes none none none "Borrower" "" true 1).follow_up_date := by
  refine ⟨by decide, by decide⟩

/-! ## C10 -/

/-- C10 (amended): an intent of `None` or the empty string is normalized to
"No Response" and escalated: `require_manual_process = true` with the
"No Response Escalation" notification to the Area Manager.  A
whitespace-only intent, however, is truthy in Python, so it strips to `""`,
matches no arm, and is *not* escalated (see the counterexample). -/
theorem missing_intent_escalates (intent payment_date category : Option String)
    (borrower_name borrower_id : String) (is_mid_call : Bool) (today : Nat)
    (h : intent = none ∨ intent = some "") :
    (determine_report_outcomes intent payment_date category borrower_name
      borrower_id is_mid_call today).require_manual_process = true ∧
    (determine_report_outcomes intent payment_date category borrower_name
      borrower_id is_mid_call today).email_to_manager_preview =
      some { «to» := "Area Manager"
             subject := "No Response Escalation: " ++ borrower_name
             body := "Hi Area Manager,\n\nWe could not get a clear response from "
               ++ borrower_name ++
               (" (" ++ borrower_id ++ "). Please follow up manually.\n\nBest regards,\nAI System") } ∧
    (determine_report_outcomes intent payment_date category borrower_name
      borrower_id is_mid_call today).next_step_summary =
      "No clear response from borrower. Escalating for manual follow-up." := by
  have hi : pyStrip (pyOr intent "No Response") = "No Response" := by
    rcases h with rfl | rfl <;> decide
  simp only [determine_report_outcomes, hi]
  rw [if_pos (show escalation_intents.contains "No Response" = true from by decide)]
  exact ⟨rfl, rfl, rfl⟩

theorem missing_intent_escalates_witness :
    (determine_report_outcomes none none none "B" "" false
      0).require_manual_process = true :=
  (missing_intent_escalates none none none "B" "" false 0 (Or.inl rfl)).1

/-- C10 counterexample: a whitespace-only intent (here a single blank) is not
normalized to "No Response" — `(intent or "No Response")` keeps the truthy
blank and `.strip()` then yields `""` — so no escalation arm fires: the
result has `require_manual_process = false` and no manager notification,
against the claim that any whitespace intent is escalated. -/
theorem whitespace_intent_not_escalated_cex :
    (determine_report_outcomes (some " ") none none "Borrower" "" false
        0).require_manual_process = false ∧
    (determine_report_outcomes (some " ") none none "Borrower" "" false
        0).email_to_manager_preview = none ∧
    pyStrip (pyOr (some " ") "No Response") = "" := by
  refine ⟨by decide, by decide, by decide⟩

/-! ## C4 -/

/-- C4: a completion event for a callId not in the registry is a no-op (state
unchanged, nothing persisted, the empty acknowledgment returned, no
exception — the handler is total), as is any event with no callId; when
`status == "completed"` and the session is registered, the handler persists
exactly one snapshot, marked inactive, removes the session and its cached
greeting (leaving every other key untouched), and a duplicate of the same
event is then a no-op. -/
theorem completion_event_spec (status : Option String) (u : String)
    (st : WebhookState) :
    (st.callData u = none →
      event_webhook status (some u) st = (st, [], WebhookAck.emptyJson)) ∧
    (event_webhook status none st = (st, [], WebhookAck.emptyJson)) ∧
    (∀ h, st.callData u = some h → status = some "completed" →
      (event_webhook status (some u) st).2.1 = [{ h with is_active := false }] ∧
      (event_webhook status (some u) st).1.callData u = none ∧
      (event_webhook status (some u) st).1.greetingCache u = none ∧
      (∀ k, k ≠ u →
        (event_webhook status (some u) st).1.callData k = st.callData k ∧
        (event_webhook status (some u) st).1.greetingCache k = st.greetingCache k) ∧
      event_webhook status (some u) (event_webhook status (some u) st).1 =
        ((event_webhook status (some u) st).1, [], WebhookAck.emptyJson)) := by
  refine ⟨?_, ?_, ?_⟩
  · intro hu
    by_cases hs : status = some "completed"
    · simp [event_webhook, hs, hu]
    · simp [event_webhook, hs]
  · rfl
  · intro h hh hs
    subst hs
    refine ⟨?_, ?_, ?_, ?_, ?_⟩
    · simp [event_webhook, hh]
    · simp [event_webhook, hh]
    · simp [event_webhook, hh]
    · intro k hk
      constructor <;> simp [event_webhook, hh, hk]
    · simp [event_webhook, hh]

/-! ## C5 -/

/-- C5: when all three placement attempts fail to connect,
`process_single_call` returns the forced-escalation response:
`require_manual_process = true`, the dedicated repeated-connection-failure
notification addressed to "Area Manager" whose subject and body name the
borrower, no follow-up date (the Outcome Resolver is bypassed and the
response's `follow_up_date` keeps its `None` default), and this single total
response is the only result for the request (`success = true` marks the
processing as finished). -/
theorem connection_failure_escalation (borrowerNO cell1 lang : String)
    (ud : Bool) (attempts : Nat → DummyResult)
    (hfail : ∀ i, i < 3 → (attempts i).success = false) :
    (process_single_call borrowerNO cell1 lang ud attempts).require_manual_process
      = true ∧
    (process_single_call borrowerNO cell1 lang ud attempts).email_to_manager_preview
      = some (connectionFailureEmail borrowerNO) ∧
    (connectionFailureEmail borrowerNO).«to» = "Area Manager" ∧
    (∃ p q, (connectionFailureEmail borrowerNO).subject = p ++ borrowerNO ++ q) ∧
    (∃ p q, (connectionFailureEmail borrowerNO).body = p ++ borrowerNO ++ q) ∧
    (process_single_call borrowerNO cell1 lang ud attempts).follow_up_date = none ∧
    (process_single_call borrowerNO cell1 lang ud attempts).call_frequency = none ∧
    (process_single_call borrowerNO cell1 lang ud attempts).success = true := by
  have h0 := hfail 0 (by omega)
  have h1 := hfail 1 (by omega)
  have h2 := hfail 2 (by omega)
  have hlast : lastRes attempts = attempts 2 := by
    simp [lastRes, h0, h1]
  have hproc : process_single_call borrowerNO cell1 lang ud attempts =
      { success := true
        borrower_id := some borrowerNO
        status := some "Failed pickup"
        next_step_summary :=
          some "All call attempts failed after 3 tries. Escalating to Manual Process."
        email_to_manager_preview := some (connectionFailureEmail borrowerNO)
        require_manual_process := true } := by
    simp [process_single_call, hlast, h2]
  refine ⟨by rw [hproc], by rw [hproc], rfl, ?_, ?_, by rw [hproc], by rw [hproc],
    by rw [hproc]⟩
  · exact ⟨"Action Required: Multiple Call Failures - Borrower ", "",
      (String.append_empty _).symm⟩
  · exact ⟨"Hi Area Manager,\n\nWe attempted to call Borrower (No: ", _, rfl⟩

theorem connection_failure_escalation_witness :
    (process_single_call "B001" "9999999999" "en-IN" true
      fun _ => { success := false }).require_manual_process = true :=
  (connection_failure_escalation "B001" "9999999999" "en-IN" true
    (fun _ => { success := false }) (fun _ _ => rfl)).1

/-! ## C6 -/

/-- Helper: a chunk whose amplitude stays below the threshold leaves
`speech_detected` false and yields no signal. -/
theorem addChunkCore_silent (st : BufState) (chunk : List Nat) (rms now : ℚ)
    (hs : st.speech_detected = false) (hr : rms < 300) :
    addChunkCore st chunk rms now =
      ({ data := st.data ++ chunk, silence_start := st.silence_start,
         speech_detected := st.speech_detected }, false) := by
  have h1 : ¬(rms ≥ 300) := not_le.mpr hr
  simp [addChunkCore, capSignal, h1, hs]

/-- Helper: below-threshold streams never signal, from any state with no
speech detected yet. -/
theorem runChunks_silent (inputs : List (List Nat × ℚ)) :
    ∀ st : BufState, st.speech_detected = false →
      (∀ p ∈ inputs, rmsOf p.1 < 300) →
      runChunks st inputs = List.replicate inputs.length false := by
  induction inputs with
  | nil => intro st _ _; rfl
  | cons p rest ih =>
    intro st hs h
    obtain ⟨c, t⟩ := p
    have hr : rmsOf c < 300 := h (c, t) (List.mem_cons_self _ _)
    have key := addChunkCore_silent st c (rmsOf c) t hs hr
    simp only [runChunks, add_chunk, key, List.length_cons]
    rw [List.replicate_succ]
    refine congrArg (List.cons false) ?_
    exact ih _ hs (fun q hq => h q (List.mem_cons_of_mem _ hq))

/-- C6: for every sequence of chunks (with arbitrary arrival times) in which
the computed amplitude of every chunk stays strictly below the silence
threshold 300, `add_chunk` never signals "utterance ready", however many
chunks arrive and however large the buffer grows: every signal in the run is
`false`. -/
theorem silent_stream_never_ready (inputs : List (List Nat × ℚ))
    (h : ∀ p ∈ inputs, rmsOf p.1 < 300) :
    runChunks initBuf inputs = List.replicate inputs.length false :=
  runChunks_silent inputs initBuf rfl h

theorem silent_stream_never_ready_witness :
    runChunks initBuf [([0, 0], (0 : ℚ))] = List.replicate 1 false :=
  silent_stream_never_ready [([0, 0], (0 : ℚ))]
    (by
      intro p hp
      rw [List.mem_singleton] at hp
      subst hp
      norm_num [rmsOf, decodeSamples])

/-! ## C8 -/

/-- Helper: a below-threshold amplitude appends the bytes and preserves the
speech flag, whatever the rest of the state machine does. -/
theorem addChunkCore_low (st : BufState) (chunk : List Nat) (rms now : ℚ)
    (hr : rms < 300) :
    (addChunkCore st chunk rms now).1.data = st.data ++ chunk ∧
    (addChunkCore st chunk rms now).1.speech_detected = st.speech_detected := by
  have h1 : ¬(rms ≥ 300) := not_le.mpr hr
  rcases st with ⟨data, ss, sd⟩
  cases ss <;> cases sd <;>
    simp [addChunkCore, capSignal, h1, hr] <;>
    split_ifs <;> simp

/-- C8: an odd-length chunk cannot be split into whole 16-bit samples;
`add_chunk` does not raise (the bare `except` catches the `struct` error):
its amplitude is treated as exactly zero, so the call behaves exactly like
the zero-amplitude run of the state machine — the bytes are still appended
and the speech flag advances normally. -/
theorem odd_chunk_no_crash (chunk : List Nat) (st : BufState) (now : ℚ)
    (h : chunk.length % 2 = 1) :
    rmsOf chunk = 0 ∧
    add_chunk st chunk now = addChunkCore st chunk 0 now ∧
    (add_chunk st chunk now).1.data = st.data ++ chunk ∧
    (add_chunk st chunk now).1.speech_detected = st.speech_detected := by
  have hz : rmsOf chunk = 0 := by simp [rmsOf, h]
  have hc : add_chunk st chunk now = addChunkCore st chunk 0 now := by
    rw [add_chunk, hz]
  have hl := addChunkCore_low st chunk 0 now (by norm_num)
  exact ⟨hz, hc, by rw [hc]; exact hl.1, by rw [hc]; exact hl.2⟩

theorem odd_chunk_no_crash_witness :
    rmsOf [0] = 0 ∧
    add_chunk initBuf [0] 0 = addChunkCore initBuf [0] 0 0 :=
  ⟨(odd_chunk_no_crash [0] initBuf 0 (by decide)).1,
   (odd_chunk_no_crash [0] initBuf 0 (by decide)).2.1⟩

/-! ## C9 -/

theorem update_language_sessionId (h : ConversationHandler) (d : String)
    (t : ℚ) : sessionId (update_language h d t) = sessionId h := by
  unfold update_language
  split_ifs <;> rfl

theorem handle_turn_sessionId (or : Oracles) (h : ConversationHandler)
    (tr : String) (now : ℚ) : sessionId (handle_turn or h tr now).1 = sessionId h := by
  simp only [handle_turn, add_entry]
  split_ifs with hd
  · exact update_language_sessionId h (detect_language tr) now
  · rfl

theorem wsHandleAudio_sessionId (or : Oracles) (h : ConversationHandler)
    (buf : BufState) (chunk : List Nat) (now : ℚ) :
    sessionId (wsHandleAudio or h buf chunk now).1 = sessionId h := by
  simp only [wsHandleAudio]
  split_ifs with hr
  · cases or.transcribe (get_audio (add_chunk buf chunk now).1).1 h.current_language with
    | some tr => exact handle_turn_sessionId or h tr now
    | none => rfl
  · rfl

theorem wsLoop_sessionId (or : Oracles) (msgs : List WsMsg) :
    ∀ (h : ConversationHandler) (buf : BufState),
      sessionId (wsLoop or h buf msgs).1 = sessionId h := by
  induction msgs with
  | nil => intro h buf; rfl
  | cons m rest ih =>
    intro h buf
    cases m with
    | audio c t =>
      simp only [wsLoop]
      rw [ih]
      exact wsHandleAudio_sessionId or h buf c t
    | text s => exact ih h buf

/-- C9: however the streaming handler's receive loop ends (disconnect or
error after any message sequence), its exit path finalizes nothing: the
greeting cache is untouched, other registry keys are untouched, an unknown
callId leaves the registry exactly as it was, and a registered session is
still registered afterwards with its identity, ownership, active flag and
preferred language unchanged — only the completion callback ever removes or
deactivates a session. -/
theorem stream_exit_preserves_session (or : Oracles) (st : WebhookState)
    (u : String) (msgs : List WsMsg) :
    ((websocket_endpoint or st u msgs).1.greetingCache = st.greetingCache) ∧
    (∀ k, k ≠ u →
      (websocket_endpoint or st u msgs).1.callData k = st.callData k) ∧
    (st.callData u = none →
      (websocket_endpoint or st u msgs).1.callData u = none) ∧
    (∀ h, st.callData u = some h →
      ∃ hf, (websocket_endpoint or st u msgs).1.callData u = some hf ∧
        hf.is_active = h.is_active ∧ hf.call_uuid = h.call_uuid ∧
        hf.user_id = h.user_id ∧ hf.borrower_id = h.borrower_id ∧
        hf.preferred_language = h.preferred_language) := by
  cases hc : st.callData u with
  | none =>
    refine ⟨?_, ?_, ?_, ?_⟩ <;> simp [websocket_endpoint, hc]
  | some h0 =>
    refine ⟨?_, ?_, ?_, ?_⟩
    · simp [websocket_endpoint, hc]
    · intro k hk
      simp [websocket_endpoint, hc, hk]
    · intro habs
      exact Option.noConfusion habs
    · intro h hh
      injection hh with hh
      subst hh
      refine ⟨(wsLoop or h0 initBuf msgs).1, by simp [websocket_endpoint, hc], ?_⟩
      have hs := wsLoop_sessionId or msgs h0 initBuf
      simp only [sessionId, Prod.mk.injEq] at hs
      exact ⟨hs.2.2.2.1, hs.1, hs.2.1, hs.2.2.1, hs.2.2.2.2⟩

end AiLoanCall
